import Mathlib

/-!
Shallow embedding of `src/faceless_short_automation.py` (a faceless
YouTube-Shorts generation pipeline) and proofs about its behaviour.

Conventions of the embedding:
* Python exceptions are values of `PyError`; a fallible Python function
  becomes a Lean function into `Except PyError _`.
* Environment variables are `Option String` (`none` when unset); Python
  string truthiness (`if not s`) is `pyStrTruthy`.
* Network requests are the boundary of the embedding: a function that
  would issue an HTTP call is modelled up to that call, either taking the
  parsed response as an explicit parameter or returning the request it
  would send.
* Randomness (`random.choice`) is made explicit as an index parameter.
-/

/-- Exception values raised by the script. -/
inductive PyError where
  | zeroDivisionError
  | valueError (msg : String)
  | environmentError (msg : String)
  | runtimeError (msg : String)
deriving DecidableEq, Repr

/-- Truthiness of an optional environment-variable string: `os.getenv`
returns `None` when the variable is unset, and Python takes the `if not s`
branch for both `None` and the empty string. -/
def pyStrTruthy : Option String → Bool
  | none => false
  | some s => !(s == "")

/-- Constant `TARGET_DURATION` (line 86): 18 seconds. -/
def TARGET_DURATION : ℚ := 18

/-- Helper for `pySplitWs`: walk the character list, cutting at whitespace.
The accumulator holds the current token reversed. -/
def splitWsAux : List Char → List Char → List (List Char)
  | [], acc => [acc.reverse]
  | c :: cs, acc =>
      if c.isWhitespace then acc.reverse :: splitWsAux cs []
      else splitWsAux cs (c :: acc)

/-- Python `str.split()` with no separator argument: split on runs of
whitespace, dropping empty tokens (so leading and trailing whitespace is
ignored). -/
def pySplitWs (s : String) : List String :=
  ((splitWsAux s.data []).filter (fun t => !t.isEmpty)).map (fun t => String.mk t)

/-- The length guard at the end of `generate_script` (lines 120-123): if
`len(script) > 390`, the script is replaced by the join of its first 75
whitespace-separated words, else returned unchanged. -/
def generate_script_truncation (script : String) : String :=
  if script.length > 390 then " ".intercalate ((pySplitWs script).take 75)
  else script

/-- Segment length computed in `build_video` (line 190):
`TARGET_DURATION / float(len(clips))`. Python float division by zero
raises `ZeroDivisionError`. -/
def build_video_segment (numClips : Nat) : Except PyError ℚ :=
  if numClips = 0 then .error .zeroDivisionError
  else .ok (TARGET_DURATION / (numClips : ℚ))

/-- Trim semantics of the media-library call `clip.subclip(t_start, t_end)`
used at line 191 (moviepy 1.x `Clip.subclip`): it raises `ValueError` when
the start time exceeds the clip native duration, and otherwise sets the new
clip duration to `t_end - t_start`, with no clamping of `t_end` to the
native duration. -/
def subclip_duration (native tStart tEnd : ℚ) : Except PyError ℚ :=
  if native < tStart then
    .error (.valueError "t_start should be smaller than the clip duration")
  else .ok (tEnd - tStart)

/-- The duration of the trimmed segment `build_video` produces for one clip
of the given native duration (lines 190-191): the segment length is computed
from the clip count and passed to `subclip(0, segment)` unconditionally. -/
def build_video_trim (numClips : Nat) (native : ℚ) : Except PyError ℚ := do
  let seg ← build_video_segment numClips
  subclip_duration native 0 seg

/-- The top-level handler (lines 321-327): a run that returns normally exits
with code 0; any uncaught exception prints a message and exits with code 1. -/
def mainExitCode : Except PyError Unit → Nat
  | .ok _ => 0
  | .error _ => 1

/-- One `video_files` entry of a search result: pixel width, pixel height
and download link. -/
structure VideoFile where
  width : Nat
  height : Nat
  link : String
deriving DecidableEq, Repr

/-- A search-result video: its list of encoded files. -/
structure Video where
  video_files : List VideoFile
deriving DecidableEq, Repr

/-- Function `_vertical_files` (lines 126-127): the files of a video whose
width is strictly less than their height. -/
def vertical_files (v : Video) : List VideoFile :=
  v.video_files.filter (fun f => f.width < f.height)

/-- Python `min(files, key=lambda f: f.width)` on a non-empty list, split as
head and tail: the first element of minimal width. -/
def min_by_width (f : VideoFile) (fs : List VideoFile) : VideoFile :=
  fs.foldl (fun acc g => if g.width < acc.width then g else acc) f

/-- Function `fetch_vertical_clip` (lines 129-158). The network search is
represented by its parsed response (the `videos` list) and `random.choice`
by the index it picks (taken modulo the length); the result is the link of
the file the function downloads. The source interpolates the query into the
empty-result message; the message text is abbreviated here. -/
def fetch_vertical_clip (pexelsKey : Option String) (videos : List Video)
    (choice : Nat) : Except PyError String :=
  if !pyStrTruthy pexelsKey then
    .error (.environmentError "PEXELS_API_KEY is not set.")
  else if videos.isEmpty then
    .error (.runtimeError "No vertical clips found.")
  else
    match vertical_files (videos.getD (choice % videos.length) ⟨[]⟩) with
    | [] => .error (.runtimeError "Chosen video has no vertical variants: retrying.")
    | f :: fs => .ok (min_by_width f fs).link

/-- Table `VOICE_ID` (lines 91-94): the language-to-voice map. -/
def VOICE_ID : List (String × String) :=
  [("en", "EXAVITQu4vr4xnSDxMaL"), ("it", "TxGEqnHWrfWFTf9VQmLc")]

/-- Python `dict.get(key, default)` on an association list. -/
def pyDictGet (d : List (String × String)) (key dflt : String) : String :=
  match d.find? (fun p => p.1 == key) with
  | some p => p.2
  | none => dflt

/-- The voice chosen at line 168: `VOICE_ID.get(lang, VOICE_ID["en"])`.
The direct index `VOICE_ID["en"]` is modelled by a `get` whose default is
never reached, since the key "en" is present in the table. -/
def voice_for_lang (lang : String) : String :=
  pyDictGet VOICE_ID lang (pyDictGet VOICE_ID "en" "")

/-- The network request posted by `generate_voiceover`: URL and text. -/
structure TtsRequest where
  url : String
  text : String
deriving DecidableEq, Repr

/-- Function `generate_voiceover` (lines 161-179) up to its network call:
the key check, then the 400-character validation; when both pass, the
request it posts to the synthesis endpoint. -/
def generate_voiceover (elevenKey : Option String) (text lang : String) :
    Except PyError TtsRequest :=
  if !pyStrTruthy elevenKey then
    .error (.environmentError "ELEVENLABS_API_KEY is not set.")
  else if text.length > 400 then
    .error (.valueError "Script too long for ElevenLabs TTS (400 char limit).")
  else
    .ok ⟨"https://api.elevenlabs.io/v1/text-to-speech/" ++ voice_for_lang lang, text⟩

/-- Keyword derivation in `run_once` (line 294): the first three
whitespace-separated tokens of the topic. -/
def run_once_keywords (topic : String) : List String :=
  (pySplitWs topic).take 3

/-- One clip download is attempted per keyword (line 295), so the number of
attempted downloads is the number of keywords. -/
def run_once_download_count (topic : String) : Nat :=
  (run_once_keywords topic).length

/-- The outcome of `upload_short`. -/
inductive UploadOutcome where
  | skippedNoLibrary
  | skippedNoToken
  | uploaded
deriving DecidableEq, Repr

/-- The message `upload_short` prints on each skip path (lines 235 and 240). -/
def upload_short_skip_message : UploadOutcome → Option String
  | .skippedNoLibrary => some "google-api-python-client not installed – skipping upload."
  | .skippedNoToken => some "YT_REFRESH_TOKEN not set – skipping upload."
  | .uploaded => none

/-- Function `upload_short` (lines 228-241): an unavailable client library
or a missing `YT_REFRESH_TOKEN` logs a message and returns normally;
otherwise the upload proceeds, its network outcome an explicit parameter. -/
def upload_short (libAvailable : Bool) (ytToken : Option String)
    (networkOutcome : Except PyError Unit) : Except PyError UploadOutcome :=
  if !libAvailable then .ok .skippedNoLibrary
  else if !pyStrTruthy ytToken then .ok .skippedNoToken
  else networkOutcome.map (fun _ => .uploaded)

/-- The final step of `run_once` (lines 307-309) after a successful render:
when upload was requested, `upload_short` runs; the overall result feeds the
top-level handler. -/
def run_once_after_render (upload libAvailable : Bool) (ytToken : Option String)
    (networkOutcome : Except PyError Unit) : Except PyError Unit :=
  if upload then (upload_short libAvailable ytToken networkOutcome).map (fun _ => ())
  else .ok ()

/-- Result of the module-level configuration checks. -/
inductive StartupResult where
  | exited (code : Nat)
  | started (warnings : List String)
deriving DecidableEq, Repr

/-- Module-level credential checks (lines 68-82): a missing `OPENAI_API_KEY`
prints an error and exits with code 1; missing `PEXELS_API_KEY` or
`ELEVENLABS_API_KEY` only print warnings and startup continues. -/
def startup_checks (openaiKey pexelsKey elevenKey : Option String) : StartupResult :=
  if !pyStrTruthy openaiKey then .exited 1
  else .started
    ((if !pyStrTruthy pexelsKey then
        ["WARNING: PEXELS_API_KEY is not set. fetch_vertical_clip will fail if called."]
      else []) ++
     (if !pyStrTruthy elevenKey then
        ["WARNING: ELEVENLABS_API_KEY is not set. generate_voiceover will fail if called."]
      else []))

/-- The body of the fallback `retry` decorator (lines 58-61) installed when
tenacity is missing: `retry(*args, **kwargs)` ignores its arguments and
returns a decorator `deco` with `deco(fn) = fn`. `Args` stands for the
ignored positional and keyword arguments. Line 63 of the same fallback
branch is modelled separately by `wait_random_exponential_fallback` and
`stop_after_attempt_fallback` below. -/
def retry_fallback {Args : Type} (_args : Args) {α β : Type} (fn : α → β) : α → β := fn

/-- Calling a Python name that may be bound to None: Python raises
TypeError when the called object is None. -/
def pyCallOpt {A B : Type} (f : Option (A → B)) (x : A) : Except String B :=
  match f with
  | none => .error "TypeError: NoneType object is not callable"
  | some g => .ok (g x)

/-- Line 63 of the tenacity-missing branch: the name
`wait_random_exponential` is bound to None. Typed as an optional callable
(argument: the min and max keyword values) so that calling it can be
modelled; the would-be wait-strategy object is abstracted as `Unit` since
it is never produced. -/
def wait_random_exponential_fallback : Option (ℕ × ℕ → Unit) := none

/-- Line 63 of the tenacity-missing branch: the name `stop_after_attempt`
is bound to None, typed like `wait_random_exponential_fallback`. -/
def stop_after_attempt_fallback : Option (ℕ → Unit) := none

/-- Module load of a decorated definition in the tenacity-missing scenario,
e.g. `generate_script` at line 103: Python first evaluates the decorator
arguments `wait_random_exponential(min=2, max=20)` and
`stop_after_attempt(4)`, and only then applies `retry` (here the fallback
`retry_fallback`) to the function. An error while evaluating an argument
propagates, aborting the module load before the function is decorated. The
function body is irrelevant to this step and is abstracted as `fn`. -/
def decorate_generate_script {W S WR SR α β : Type}
    (wait_fn : Option (W → WR)) (stop_fn : Option (S → SR))
    (wait_args : W) (stop_args : S) (fn : α → β) :
    Except String (α → β) := do
  let w ← pyCallOpt wait_fn wait_args
  let s ← pyCallOpt stop_fn stop_args
  pure (retry_fallback (w, s) fn)

/-- Decidable equality for `Except`, so that concrete runs of the embedded
functions can be checked by `decide`. -/
instance exceptDecEq {e a : Type} [DecidableEq e] [DecidableEq a] :
    DecidableEq (Except e a)
  | .ok x, .ok y =>
      if h : x = y then .isTrue (by rw [h])
      else .isFalse (by intro he; cases he; exact h rfl)
  | .ok _, .error _ => .isFalse (by intro he; cases he)
  | .error _, .ok _ => .isFalse (by intro he; cases he)
  | .error x, .error y =>
      if h : x = y then .isTrue (by rw [h])
      else .isFalse (by intro he; cases he; exact h rfl)

/-- A 450-character single-word script: the chat response used to exhibit the
behaviour of the truncation guard on overlong one-token text. -/
def w450 : String := String.mk (List.replicate 450 'a')

/-- A 450-character text used to exercise the speech-synthesis length check. -/
def t450 : String := String.mk (List.replicate 450 'b')

/-- A landscape encoding (width 1920 over height 1080). -/
def fileLandscape : VideoFile := ⟨1920, 1080, "l1"⟩

/-- A small vertical encoding (width 720 under height 1280). -/
def fileSmallVert : VideoFile := ⟨720, 1280, "l2"⟩

/-- A large vertical encoding (width 1080 under height 1920). -/
def fileBigVert : VideoFile := ⟨1080, 1920, "l3"⟩

/-- A search result mixing one landscape and two vertical encodings. -/
def vidMixed : Video := ⟨[fileLandscape, fileBigVert, fileSmallVert]⟩

/-- A search result with only a landscape encoding. -/
def vidLandscape : Video := ⟨[fileLandscape]⟩

set_option maxRecDepth 8000

/-- Unfolding step of `min_by_width` along a cons cell. -/
theorem min_by_width_cons (f g : VideoFile) (gs : List VideoFile) :
    min_by_width f (g :: gs) = min_by_width (if g.width < f.width then g else f) gs := rfl

/-- The element `min_by_width` picks is one of the candidates. -/
theorem min_by_width_mem (f : VideoFile) (fs : List VideoFile) :
    min_by_width f fs ∈ f :: fs := by
  induction fs generalizing f with
  | nil => simp [min_by_width]
  | cons g gs ih =>
      rw [min_by_width_cons]
      by_cases h : g.width < f.width
      · rw [if_pos h]
        rcases List.mem_cons.mp (ih g) with h1 | h1
        · exact List.mem_cons_of_mem f (by rw [h1]; exact List.mem_cons_self g gs)
        · exact List.mem_cons_of_mem f (List.mem_cons_of_mem g h1)
      · rw [if_neg h]
        rcases List.mem_cons.mp (ih f) with h1 | h1
        · rw [h1]; exact List.mem_cons_self f (g :: gs)
        · exact List.mem_cons_of_mem f (List.mem_cons_of_mem g h1)

/-- The element `min_by_width` picks has minimal width among the candidates. -/
theorem min_by_width_le (f : VideoFile) (fs : List VideoFile) :
    ∀ g ∈ f :: fs, (min_by_width f fs).width ≤ g.width := by
  induction fs generalizing f with
  | nil =>
      intro g hg
      rcases List.mem_singleton.mp hg with rfl
      simp [min_by_width]
  | cons g gs ih =>
      intro x hx
      rw [min_by_width_cons]
      have hacc : (if g.width < f.width then g else f).width ≤ f.width ∧
          (if g.width < f.width then g else f).width ≤ g.width := by
        by_cases h : g.width < f.width
        · rw [if_pos h]; exact ⟨le_of_lt h, le_refl _⟩
        · rw [if_neg h]; exact ⟨le_refl _, le_of_not_lt h⟩
      have hself := ih (if g.width < f.width then g else f)
      rcases List.mem_cons.mp hx with rfl | hx1
      · exact le_trans (hself _ (List.mem_cons_self _ _)) hacc.1
      · rcases List.mem_cons.mp hx1 with rfl | hx2
        · exact le_trans (hself _ (List.mem_cons_self _ _)) hacc.2
        · exact hself _ (List.mem_cons_of_mem _ hx2)

/-- Every member of `vertical_files` is vertical: width strictly below height. -/
theorem mem_vertical_files {v : Video} {f : VideoFile} (h : f ∈ vertical_files v) :
    f.width < f.height := by
  have := List.of_mem_filter h
  simpa using this

/-- C1 counterexample: a 450-character single-word chat response is overlong,
the guard triggers, yet the truncation to the first 75 words returns the text
unchanged at 450 characters, exceeding the 400-character synthesis limit. So
the truncation step does not always yield a string of at most 400 characters. -/
theorem generate_script_truncation_cex :
    w450.length > 390 ∧ (generate_script_truncation w450).length > 400 := by decide

/-- C1 (amended): whenever the raw chat response exceeds 390 characters,
`generate_script` replaces it by the join of its first 75 whitespace-separated
words — at most 75 words are kept, but no 400-character bound on the result
follows, since individual words can be arbitrarily long. -/
theorem generate_script_truncation_amended (script : String)
    (h : script.length > 390) :
    generate_script_truncation script = " ".intercalate ((pySplitWs script).take 75) ∧
    ((pySplitWs script).take 75).length ≤ 75 :=
  ⟨by simp [generate_script_truncation, h], List.length_take_le 75 (pySplitWs script)⟩

/-- Witness for the amended C1 at the concrete 450-character input. -/
theorem generate_script_truncation_amended_witness :
    w450.length > 390 ∧
    (generate_script_truncation w450 = " ".intercalate ((pySplitWs w450).take 75) ∧
      ((pySplitWs w450).take 75).length ≤ 75) :=
  ⟨by decide, generate_script_truncation_amended w450 (by decide)⟩

/-- C2 counterexample: with 2 clips the segment length is 9; a clip of native
duration 5 seconds is trimmed to a 9-second sub-segment, not to
min(9, 5) = 5 — the end bound passed to `subclip` is the segment length,
never capped at the native duration. -/
theorem build_video_trim_cex :
    build_video_trim 2 5 = .ok 9 ∧
    build_video_trim 2 5 ≠ .ok (min (TARGET_DURATION / ((2 : Nat) : ℚ)) 5) := by
  constructor
  · norm_num [build_video_trim, build_video_segment, subclip_duration, TARGET_DURATION,
      Bind.bind, Except.bind]
  · norm_num [build_video_trim, build_video_segment, subclip_duration, TARGET_DURATION,
      Bind.bind, Except.bind]

/-- C2 (amended): for every nonzero clip count and nonnegative native
duration, `build_video` trims each clip from time 0 to the full segment
length `TARGET_DURATION / numClips`, regardless of the clip native duration;
no minimum with the native duration is applied and no error is raised at
trim time. -/
theorem build_video_trim_amended (numClips : Nat) (native : ℚ)
    (hn : numClips ≠ 0) (hnat : 0 ≤ native) :
    build_video_trim numClips native = .ok (TARGET_DURATION / (numClips : ℚ)) := by
  simp [build_video_trim, build_video_segment, subclip_duration, hn, not_lt.mpr hnat,
    Bind.bind, Except.bind]

/-- Witness for the amended C2 at 2 clips and a 5-second native duration. -/
theorem build_video_trim_amended_witness :
    (2 : Nat) ≠ 0 ∧ (0 : ℚ) ≤ 5 ∧
    build_video_trim 2 5 = .ok (TARGET_DURATION / ((2 : Nat) : ℚ)) :=
  ⟨by decide, by norm_num, build_video_trim_amended 2 5 (by decide) (by norm_num)⟩

/-- C3 counterexample: with an empty clip list the segment-length computation
does divide by zero — `TARGET_DURATION / float(len(clips))` raises
`ZeroDivisionError`, not a dedicated validation error. -/
theorem build_video_segment_zero_cex :
    build_video_segment 0 = .error .zeroDivisionError := rfl

/-- C3 (amended): calling `build_video` with an empty clip list raises
`ZeroDivisionError` at the segment-length computation; the run fails fast —
no trim is attempted and the top-level handler exits with code 1 — but the
error is the raw division-by-zero, not an explicit clear validation error. -/
theorem build_video_empty_clips_amended (native : ℚ) :
    build_video_segment 0 = .error .zeroDivisionError ∧
    build_video_trim 0 native = .error .zeroDivisionError ∧
    mainExitCode (.error .zeroDivisionError) = 1 :=
  ⟨rfl, rfl, rfl⟩

/-- C4: whenever `fetch_vertical_clip` returns a download link, that link
belongs to a vertical file (width strictly below height) of the chosen search
result, of minimal width among the vertical encodings of that result; and
when the chosen result has no vertical encoding the function raises a
`RuntimeError` instead of falling back to a landscape file. -/
theorem fetch_vertical_clip_vertical_only (pexelsKey : Option String)
    (videos : List Video) (choice : Nat) :
    (∀ link, fetch_vertical_clip pexelsKey videos choice = .ok link →
      ∃ f, f ∈ vertical_files (videos.getD (choice % videos.length) ⟨[]⟩) ∧
        link = f.link ∧ f.width < f.height ∧
        ∀ g ∈ vertical_files (videos.getD (choice % videos.length) ⟨[]⟩),
          f.width ≤ g.width) ∧
    (pyStrTruthy pexelsKey = true → videos.isEmpty = false →
      vertical_files (videos.getD (choice % videos.length) ⟨[]⟩) = [] →
      fetch_vertical_clip pexelsKey videos choice =
        .error (.runtimeError "Chosen video has no vertical variants: retrying.")) := by
  constructor
  · intro link hok
    unfold fetch_vertical_clip at hok
    split at hok
    · exact absurd hok (by simp)
    · split at hok
      · exact absurd hok (by simp)
      · split at hok
        · exact absurd hok (by simp)
        · rename_i f fs heq
          refine ⟨min_by_width f fs, ?_, ?_, ?_, ?_⟩
          · rw [heq]; exact min_by_width_mem f fs
          · cases hok; rfl
          · exact mem_vertical_files (by rw [heq]; exact min_by_width_mem f fs)
          · intro g hg
            rw [heq] at hg
            exact min_by_width_le f fs g hg
  · intro hk hne hempty
    unfold fetch_vertical_clip
    rw [hk, hne, hempty]
    rfl

/-- Witness for C4: on a mixed search result the selected link is the small
vertical file, and a landscape-only result raises. -/
theorem fetch_vertical_clip_vertical_only_witness :
    (∃ f, f ∈ vertical_files (([vidMixed] : List Video).getD (0 % 1) ⟨[]⟩) ∧
      "l2" = f.link ∧ f.width < f.height ∧
      ∀ g ∈ vertical_files (([vidMixed] : List Video).getD (0 % 1) ⟨[]⟩),
        f.width ≤ g.width) ∧
    fetch_vertical_clip (some "k") [vidLandscape] 0 =
      .error (.runtimeError "Chosen video has no vertical variants: retrying.") :=
  ⟨(fetch_vertical_clip_vertical_only (some "k") [vidMixed] 0).1 "l2" (by decide),
   (fetch_vertical_clip_vertical_only (some "k") [vidLandscape] 0).2 (by decide)
     (by decide) (by decide)⟩

/-- C5: with the synthesis key configured, `generate_voiceover` rejects any
text longer than 400 characters with a local `ValueError` before reaching its
network call, and any text of at most 400 characters passes the local length
check (the function proceeds to build the synthesis request). -/
theorem generate_voiceover_length_check (elevenKey : Option String) (text lang : String)
    (hk : pyStrTruthy elevenKey = true) :
    (text.length > 400 →
      generate_voiceover elevenKey text lang =
        .error (.valueError "Script too long for ElevenLabs TTS (400 char limit).")) ∧
    (text.length ≤ 400 → ∃ req, generate_voiceover elevenKey text lang = .ok req) := by
  constructor
  · intro hlen
    unfold generate_voiceover
    rw [hk]
    simp [hlen]
  · intro hlen
    unfold generate_voiceover
    rw [hk]
    simp [Nat.not_lt.mpr hlen]

/-- Witness for C5 at a concrete 450-character text. -/
theorem generate_voiceover_length_check_witness :
    pyStrTruthy (some "k") = true ∧
    t450.length > 400 ∧
    generate_voiceover (some "k") t450 "en" =
      .error (.valueError "Script too long for ElevenLabs TTS (400 char limit).") :=
  ⟨by decide, by decide,
    (generate_voiceover_length_check (some "k") t450 "en" (by decide)).1 (by decide)⟩

/-- C6: the topic "quantum computing" yields exactly the keywords
["quantum", "computing"] (its first three whitespace-separated tokens), so
exactly 2 clip downloads are attempted; with 2 clips the computed segment
length is exactly 9 seconds, and in general the segment length for n + 1
clips is `TARGET_DURATION / (n + 1)`. -/
theorem run_once_quantum_scenario :
    run_once_keywords "quantum computing" = ["quantum", "computing"] ∧
    run_once_download_count "quantum computing" = 2 ∧
    build_video_segment 2 = .ok 9 ∧
    ∀ n : Nat, build_video_segment (n + 1) = .ok (TARGET_DURATION / ((n + 1 : Nat) : ℚ)) := by
  refine ⟨by decide, by decide, ?_, ?_⟩
  · norm_num [build_video_segment, TARGET_DURATION]
  · intro n
    simp [build_video_segment]

/-- C7: if the upload client library cannot be imported or the stored refresh
token is absent, `upload_short` returns normally with a logged skip message,
and a run that requested upload still completes with exit code 0. -/
theorem upload_short_skip (libAvailable : Bool) (ytToken : Option String)
    (networkOutcome : Except PyError Unit)
    (h : libAvailable = false ∨ pyStrTruthy ytToken = false) :
    (∃ r, upload_short libAvailable ytToken networkOutcome = .ok r ∧
      (upload_short_skip_message r).isSome = true) ∧
    mainExitCode (run_once_after_render true libAvailable ytToken networkOutcome) = 0 := by
  have hmain : ∀ r, upload_short libAvailable ytToken networkOutcome = .ok r →
      mainExitCode (run_once_after_render true libAvailable ytToken networkOutcome) = 0 := by
    intro r hr
    simp [run_once_after_render, hr, mainExitCode, Except.map]
  rcases h with h | h
  · subst h
    exact ⟨⟨.skippedNoLibrary, rfl, rfl⟩, hmain _ rfl⟩
  · cases libAvailable with
    | false => exact ⟨⟨.skippedNoLibrary, rfl, rfl⟩, hmain _ rfl⟩
    | true =>
        have hts : upload_short true ytToken networkOutcome = .ok .skippedNoToken := by
          unfold upload_short
          rw [h]
          rfl
        exact ⟨⟨.skippedNoToken, hts, rfl⟩, hmain _ hts⟩

/-- Witness for C7: library present but no stored refresh token. -/
theorem upload_short_skip_witness :
    (true = false ∨ pyStrTruthy (none : Option String) = false) ∧
    ((∃ r, upload_short true none (.ok ()) = .ok r ∧
       (upload_short_skip_message r).isSome = true) ∧
     mainExitCode (run_once_after_render true true none (.ok ())) = 0) :=
  ⟨Or.inr rfl, upload_short_skip true none (.ok ()) (Or.inr rfl)⟩

/-- C8 counterexample: with the language-model key set but the stock-video
search key missing, startup only records a warning and continues — it is not
fatal, contradicting the claim that every missing required credential is
fatal at startup. -/
theorem startup_checks_cex :
    startup_checks (some "sk") none (some "el") ≠ .exited 1 ∧
    startup_checks (some "sk") none (some "el") =
      .started ["WARNING: PEXELS_API_KEY is not set. fetch_vertical_clip will fail if called."] := by
  decide

/-- C8 (amended): only a missing language-model key is fatal at startup
(exit code 1); missing stock-video or speech-synthesis keys produce startup
warnings only, and each is detected as an `EnvironmentError` when the
corresponding component is invoked, before that component issues its network
call. -/
theorem startup_checks_amended (openaiKey pexelsKey elevenKey : Option String)
    (videos : List Video) (choice : Nat) (text lang : String) :
    (pyStrTruthy openaiKey = false →
      startup_checks openaiKey pexelsKey elevenKey = .exited 1) ∧
    (pyStrTruthy pexelsKey = false →
      fetch_vertical_clip pexelsKey videos choice =
        .error (.environmentError "PEXELS_API_KEY is not set.")) ∧
    (pyStrTruthy elevenKey = false →
      generate_voiceover elevenKey text lang =
        .error (.environmentError "ELEVENLABS_API_KEY is not set.")) := by
  refine ⟨fun h => ?_, fun h => ?_, fun h => ?_⟩
  · unfold startup_checks; rw [h]; rfl
  · unfold fetch_vertical_clip; rw [h]; rfl
  · unfold generate_voiceover; rw [h]; rfl

/-- Witness for the amended C8 with every key absent. -/
theorem startup_checks_amended_witness :
    startup_checks none none none = .exited 1 ∧
    fetch_vertical_clip none [] 0 = .error (.environmentError "PEXELS_API_KEY is not set.") ∧
    generate_voiceover none "hi" "en" =
      .error (.environmentError "ELEVENLABS_API_KEY is not set.") :=
  ⟨(startup_checks_amended none none none [] 0 "hi" "en").1 rfl,
   (startup_checks_amended none none none [] 0 "hi" "en").2.1 rfl,
   (startup_checks_amended none none none [] 0 "hi" "en").2.2 rfl⟩

/-- C9: for every language code outside the supported set, the voice lookup
falls back to the English voice identifier, so the synthesis request always
uses a defined voice. -/
theorem voice_for_lang_fallback (lang : String) (h1 : lang ≠ "en") (h2 : lang ≠ "it") :
    voice_for_lang lang = voice_for_lang "en" ∧
    voice_for_lang lang = "EXAVITQu4vr4xnSDxMaL" := by
  have e1 : (("en" : String) == lang) = false := beq_eq_false_iff_ne.mpr (Ne.symm h1)
  have e2 : (("it" : String) == lang) = false := beq_eq_false_iff_ne.mpr (Ne.symm h2)
  constructor <;> simp [voice_for_lang, pyDictGet, VOICE_ID, List.find?, e1, e2]

/-- Witness for C9 at the unsupported language code "fr". -/
theorem voice_for_lang_fallback_witness :
    ("fr" ≠ "en") ∧ ("fr" ≠ "it") ∧
    (voice_for_lang "fr" = voice_for_lang "en" ∧
     voice_for_lang "fr" = "EXAVITQu4vr4xnSDxMaL") :=
  ⟨by decide, by decide, voice_for_lang_fallback "fr" (by decide) (by decide)⟩

/-- C10 (code bug): the fallback decorator body of lines 58-61 is indeed the
identity, but with tenacity missing it is never applied: line 63 binds
`wait_random_exponential` and `stop_after_attempt` to None, and at the first
decoration site (line 103) Python evaluates
`wait_random_exponential(min=2, max=20)` before applying `retry`, so calling
None raises TypeError during module load — no function is ever decorated and
no external call is attempted at all, contradicting the comment at line 57
that the script still runs without tenacity. -/
theorem retry_fallback_never_applied {α β : Type} (fn : α → β) :
    decorate_generate_script wait_random_exponential_fallback
      stop_after_attempt_fallback (2, 20) 4 fn =
      .error "TypeError: NoneType object is not callable" ∧
    ∀ args : Unit × Unit, retry_fallback args fn = fn :=
  ⟨rfl, fun _ => rfl⟩
